import Mathlib

/-!
Verification of the idempotent-intake controller of the polyglot ledger
engine.  The definitions below are a shallow embedding of the Go handler
in go-api/main.go: pure data is mirrored by Lean structures, the Redis
client is an explicit key-value map threaded through the handler, the
AMQP publisher is the list of messages emitted by a call, and the
outcome of each external call (Redis Exists, publish, Redis Set) is an
explicit boolean parameter of the environment.  Go's float64 amount is
embedded as a rational number; Go machine integers fit in Lean's Int for
every operation the handler performs (only equality is used).
-/

/-- Mirrors the Go struct TransferRequest (main.go lines 25-30) with its
four JSON-tagged fields. -/
structure TransferRequest where
  IdempotencyKey : String
  SourceID : Int
  TargetID : Int
  Amount : ℚ
deriving DecidableEq

/-- A JSON scalar value, enough for the four fields of TransferRequest. -/
inductive JValue
  | jstr (s : String)
  | jint (n : Int)
  | jnum (q : ℚ)
deriving DecidableEq

/-- A marshalled JSON object: an association list of field tag and value. -/
abbrev Payload := List (String × JValue)

/-- Embeds json.Marshal on a TransferRequest (main.go line 78): the object
carries the four fields under their JSON tags, in struct order. -/
def jsonMarshal (req : TransferRequest) : Payload :=
  [("idempotency_key", .jstr req.IdempotencyKey),
   ("source_id", .jint req.SourceID),
   ("target_id", .jint req.TargetID),
   ("amount", .jnum req.Amount)]

/-- Field lookup in a marshalled object, as json.Unmarshal resolves tags. -/
def jsonLookup (p : Payload) (tag : String) : Option JValue :=
  (p.find? (fun kv => kv.1 == tag)).map (fun kv => kv.2)

/-- Embeds json.Unmarshal into a TransferRequest: each tagged field must be
present with the right scalar shape. -/
def jsonUnmarshal (p : Payload) : Option TransferRequest :=
  match jsonLookup p "idempotency_key", jsonLookup p "source_id",
        jsonLookup p "target_id", jsonLookup p "amount" with
  | some (.jstr k), some (.jint s), some (.jint t), some (.jnum a) =>
      some ⟨k, s, t, a⟩
  | _, _, _, _ => none

/-- An entry of the Redis store: the stored string and its TTL
(a Go time.Duration, in nanoseconds). -/
structure StoreEntry where
  value : String
  ttl : Int
deriving DecidableEq

/-- The Redis keyspace: a partial map from keys to entries. -/
abbrev Store := String → Option StoreEntry

/-- The empty keyspace. -/
def emptyStore : Store := fun _ => none

/-- Redis SET key value with an expiration (rdb.Set in main.go line 97). -/
def setStore (st : Store) (k v : String) (ttl : Int) : Store :=
  fun k' => if k' = k then some ⟨v, ttl⟩ else st k'

/-- Go's time.Hour in nanoseconds. -/
def timeHour : Int := 3600 * 1000000000

/-- Outcomes of the external calls a single request makes, plus the fresh
UUID watermill.NewUUID returns (main.go line 84): existsOk is whether
rdb.Exists succeeds, pubOk whether publisher.Publish succeeds, setOk
whether the final rdb.Set succeeds. -/
structure Env where
  existsOk : Bool
  pubOk : Bool
  setOk : Bool
  msgId : String

/-- A message handed to the publisher (message.NewMessage, main.go
line 84): its UUID and its marshalled payload. -/
structure Message where
  uuid : String
  payload : Payload
deriving DecidableEq

/-- The caller-visible outcome of ServeHTTP, one constructor per distinct
HTTP response the handler writes: rejected covers the two 400 responses
(invalid JSON, invalid parameters), internalError the 500, duplicate the
200 duplicate_request_acknowledged, unavailable the 503, and accepted the
202 carrying the message UUID. -/
inductive Response
  | rejected
  | internalError
  | duplicate
  | unavailable
  | accepted (msgId : String)
deriving DecidableEq

/-- Everything a single call produces: the response written to the caller,
the Redis keyspace after the call, and the messages published. -/
structure SubmitResult where
  response : Response
  store : Store
  published : List Message

/-- The validation predicate of main.go line 55, verbatim: the request is
rejected when its amount is non-positive, its endpoints coincide, or its
idempotency key is empty. -/
abbrev invalidParams (req : TransferRequest) : Prop :=
  req.Amount ≤ 0 ∨ req.SourceID = req.TargetID ∨ req.IdempotencyKey = ""

/-- Shallow embedding of TransferHandler.ServeHTTP (main.go lines 41-106)
for a POST request.  The body argument is the result of the JSON decode
at line 50 (none embeds a decode error).  The sequence mirrors the
source: validate (line 55), rdb.Exists (line 64, with its error branch),
early duplicate return (lines 70-75), marshal and publish (lines 78-94;
json.Marshal cannot fail on this struct), rdb.Set of the idempotency key
to "processing" with a 24-hour TTL where a Set error is only logged
(lines 96-100), and the 202 response (lines 102-105). -/
def ServeHTTP (body : Option TransferRequest) (env : Env) (store : Store) :
    SubmitResult :=
  match body with
  | none => ⟨.rejected, store, []⟩
  | some req =>
    if invalidParams req then ⟨.rejected, store, []⟩
    else if env.existsOk = false then ⟨.internalError, store, []⟩
    else if (store req.IdempotencyKey).isSome then ⟨.duplicate, store, []⟩
    else
      let msg : Message := ⟨env.msgId, jsonMarshal req⟩
      if env.pubOk = false then ⟨.unavailable, store, []⟩
      else
        let store1 :=
          if env.setOk then
            setStore store req.IdempotencyKey "processing" (24 * timeHour)
          else store
        ⟨.accepted env.msgId, store1, [msg]⟩

/-- Outcome of the status query: the key is absent, or holds a value. -/
inductive QueryResult
  | unknown
  | found (value : String)
deriving DecidableEq

/-- Modelled from the spec: the Status Query Service (spec section 4.3) is
not present under src/ — the repository exposes only the /transfer
endpoint.  Per the spec it looks up the status key, returns Unknown when
the key is absent, the stored value verbatim otherwise, and is read-only
(it takes the store and returns no store). -/
def query (store : Store) (key : String) : QueryResult :=
  match store key with
  | none => .unknown
  | some e => .found e.value

/-- The program counter of one validated in-flight request, splitting
ServeHTTP at its external-call boundaries: checkExists is about to run
the rdb.Exists call (main.go line 64), publishStep the
publisher.Publish call (line 87), writeKey the rdb.Set call (line 97),
and finished carries the response written to the caller. -/
inductive Phase
  | checkExists
  | publishStep
  | writeKey
  | finished (resp : Response)
deriving DecidableEq

/-- One atomic step of a validated in-flight request against the shared
store, on the path where rdb.Exists itself succeeds.  Each step performs
exactly one external call of ServeHTTP and returns the next phase, the
store after the step, and the messages the step published.  The theorem
runThread_eq_ServeHTTP below checks this decomposition against ServeHTTP. -/
def stepThread (env : Env) (req : TransferRequest) (ph : Phase)
    (store : Store) : Phase × Store × List Message :=
  match ph with
  | .checkExists =>
      if (store req.IdempotencyKey).isSome then (.finished .duplicate, store, [])
      else (.publishStep, store, [])
  | .publishStep =>
      if env.pubOk = false then (.finished .unavailable, store, [])
      else (.writeKey, store, [⟨env.msgId, jsonMarshal req⟩])
  | .writeKey =>
      let store1 :=
        if env.setOk then
          setStore store req.IdempotencyKey "processing" (24 * timeHour)
        else store
      (.finished (.accepted env.msgId), store1, [])
  | .finished r => (.finished r, store, [])

/-- Runs one request alone to completion: three steps from checkExists,
collecting the published messages. -/
def runThread (env : Env) (req : TransferRequest) (store : Store) :
    Phase × Store × List Message :=
  let r1 := stepThread env req .checkExists store
  let r2 := stepThread env req r1.1 r1.2.1
  let r3 := stepThread env req r2.1 r2.2.1
  (r3.1, r3.2.1, r1.2.2 ++ r2.2.2 ++ r3.2.2)

/-- State of two concurrent requests sharing one Redis store: the store,
the messages published so far, and each request's phase. -/
structure SysState where
  store : Store
  published : List Message
  t1 : Phase
  t2 : Phase

/-- Interleaving step: the scheduler picks request one (who = true) or
request two (who = false) to run its next atomic step. -/
def stepSys (e1 e2 : Env) (r1 r2 : TransferRequest) (s : SysState)
    (who : Bool) : SysState :=
  if who then
    let r := stepThread e1 r1 s.t1 s.store
    ⟨r.2.1, s.published ++ r.2.2, r.1, s.t2⟩
  else
    let r := stepThread e2 r2 s.t2 s.store
    ⟨r.2.1, s.published ++ r.2.2, s.t1, r.1⟩

/-- Runs a schedule, one boolean per step choosing which request moves. -/
def runSched (e1 e2 : Env) (r1 r2 : TransferRequest) (sched : List Bool)
    (s : SysState) : SysState :=
  sched.foldl (stepSys e1 e2 r1 r2) s

/-- The spec's example request: key k1, source 1, target 2, amount 100.50. -/
def req1 : TransferRequest := ⟨"k1", 1, 2, 201 / 2⟩

/-- A request failing every validation rule: empty key, equal endpoints,
non-positive amount. -/
def reqBad : TransferRequest := ⟨"", 1, 1, 0⟩

/-- All external calls succeed; the fresh UUID is m1. -/
def envA : Env := ⟨true, true, true, "m1"⟩

/-- All external calls succeed; the fresh UUID is m2. -/
def envB : Env := ⟨true, true, true, "m2"⟩

/-- The publish call fails; Exists and Set would succeed. -/
def envPubFail : Env := ⟨true, false, true, "m1"⟩

/-- A store already holding a live claim for key k1. -/
def dupStore : Store := setStore emptyStore "k1" "processing" (24 * timeHour)

/-- Two concurrent submissions of the identical request req1 on an empty
store, scheduled so both existence checks run before either write: first
check, second check, then each finishes in turn. -/
def raceResult : SysState :=
  runSched envA envB req1 req1 [true, false, true, true, false, false]
    ⟨emptyStore, [], .checkExists, .checkExists⟩

theorem jsonMarshal_roundtrip (req : TransferRequest) :
    jsonUnmarshal (jsonMarshal req) = some req := rfl

/-- Faithfulness of the step decomposition: running one validated request
alone through the three atomic steps produces exactly the response, the
store and the published messages of ServeHTTP, whenever rdb.Exists
succeeds. -/
theorem runThread_eq_ServeHTTP (env : Env) (req : TransferRequest)
    (store : Store) (hvalid : ¬ invalidParams req)
    (hex : env.existsOk = true) :
    runThread env req store =
      ((.finished (ServeHTTP (some req) env store).response : Phase),
       (ServeHTTP (some req) env store).store,
       (ServeHTTP (some req) env store).published) := by
  cases h1 : (store req.IdempotencyKey).isSome <;> cases h2 : env.pubOk <;>
    cases h3 : env.setOk <;>
      simp [runThread, stepThread, ServeHTTP, hvalid, hex, h1, h2, h3]

/-- The spec's example request passes all three validation rules. -/
theorem req1_valid : ¬ invalidParams req1 := by
  simp only [invalidParams, req1, not_or]
  refine ⟨by norm_num, by norm_num, by simp⟩

/-- A validated request is never answered with the rejected response:
whatever the store and the outcomes of the external calls, the remaining
branches of ServeHTTP answer internalError, duplicate, unavailable or
accepted. -/
theorem valid_not_rejected (req : TransferRequest) (env : Env)
    (store : Store) (hv : ¬ invalidParams req) :
    (ServeHTTP (some req) env store).response ≠ .rejected := by
  cases hex : env.existsOk <;> cases hp : env.pubOk <;>
    cases hs : env.setOk <;> cases hd : (store req.IdempotencyKey).isSome <;>
      simp [ServeHTTP, hv, hex, hp, hs, hd]

/-- On the all-successful path with a fresh key, the store after the call
is exactly the prior store with the idempotency key itself set to
"processing" for 24 hours. -/
theorem ServeHTTP_store_set (req : TransferRequest) (store : Store)
    (msgId : String) (hvalid : ¬ invalidParams req)
    (hfresh : store req.IdempotencyKey = none) :
    (ServeHTTP (some req) ⟨true, true, true, msgId⟩ store).store =
      setStore store req.IdempotencyKey "processing" (24 * timeHour) := by
  simp [ServeHTTP, hvalid, hfresh]

/-- Claim C1: the claim asserts that claim creation is a single atomic
conditional write, so that N concurrent submits with one key yield
exactly one Accepted and one published message.  The code instead runs a
separate rdb.Exists check (line 64) and a separate rdb.Set after publish
(line 97); this theorem evaluates the interleaving in which both
existence checks precede either write: both calls finish Accepted and
two messages are published. -/
theorem C1_race_two_accepted :
    raceResult.t1 = .finished (.accepted "m1") ∧
    raceResult.t2 = .finished (.accepted "m2") ∧
    raceResult.published =
      [⟨"m1", jsonMarshal req1⟩, ⟨"m2", jsonMarshal req1⟩] := by
  refine ⟨rfl, rfl, rfl⟩

/-- Claim C2 counterexample: a submit whose publish fails returns
unavailable, yet the claim key does not exist in the store at that point
— contradicting the claim that it was already created in step 2. -/
theorem C2_counterexample :
    (ServeHTTP (some req1) envPubFail emptyStore).response = .unavailable ∧
    (ServeHTTP (some req1) envPubFail emptyStore).store "k1" = none := by
  refine ⟨?_, ?_⟩ <;> simp [ServeHTTP, req1_valid, envPubFail, emptyStore]

/-- Claim C2 (amended): for every submit call in which publish fails, the
call returns Unavailable and the failure is never reported as success;
but no claim key exists for the request's idempotency key at that point
— the key is written only after a successful publish — so there is
nothing for the controller to delete or leave to expire. -/
theorem C2_amended_unavailable (req : TransferRequest) (store : Store)
    (msgId : String) (setOk : Bool) (hvalid : ¬ invalidParams req)
    (hfresh : store req.IdempotencyKey = none) :
    (ServeHTTP (some req) ⟨true, false, setOk, msgId⟩ store).response =
        .unavailable ∧
    (ServeHTTP (some req) ⟨true, false, setOk, msgId⟩ store).store
        req.IdempotencyKey = none ∧
    ∀ m : String,
      (ServeHTTP (some req) ⟨true, false, setOk, msgId⟩ store).response ≠
        .accepted m := by
  refine ⟨?_, ?_, ?_⟩ <;> simp [ServeHTTP, hvalid, hfresh]

/-- Claim C2 witness: the amended statement at the concrete request req1
on the empty store. -/
theorem C2_amended_unavailable_witness :
    (ServeHTTP (some req1) envPubFail emptyStore).response = .unavailable ∧
    (ServeHTTP (some req1) envPubFail emptyStore).store "k1" = none ∧
    ∀ m : String,
      (ServeHTTP (some req1) envPubFail emptyStore).response ≠
        .accepted m :=
  C2_amended_unavailable req1 emptyStore "m1" true req1_valid rfl

/-- Claim C3 counterexample: the write that follows a successful publish
sets the idempotency key itself — not a key in a distinct status
namespace — and stores the value processing, not pending. -/
theorem C3_counterexample :
    (ServeHTTP (some req1) envA emptyStore).store =
      setStore emptyStore "k1" "processing" (24 * timeHour) ∧
    (ServeHTTP (some req1) envA emptyStore).store "k1" =
      some ⟨"processing", 24 * timeHour⟩ ∧
    "processing" ≠ "pending" := by
  have h := ServeHTTP_store_set req1 emptyStore "m1" req1_valid rfl
  refine ⟨h, ?_, by decide⟩
  have h2 : (ServeHTTP (some req1) envA emptyStore).store "k1" =
      setStore emptyStore "k1" "processing" (24 * timeHour) "k1" :=
    congrFun h "k1"
  rw [h2]
  simp [setStore]

/-- Claim C3 (amended): for every submit call in which publish succeeds
and the store write succeeds, the controller writes the value processing
under the idempotency key itself — the same key that serves as the dedup
claim, with no distinct namespace — with a 24-hour TTL; no separate
pending status record is created. -/
theorem C3_amended_write (req : TransferRequest) (store : Store)
    (msgId : String) (hvalid : ¬ invalidParams req)
    (hfresh : store req.IdempotencyKey = none) :
    (ServeHTTP (some req) ⟨true, true, true, msgId⟩ store).store =
      setStore store req.IdempotencyKey "processing" (24 * timeHour) :=
  ServeHTTP_store_set req store msgId hvalid hfresh

/-- Claim C3 witness: the amended statement at the concrete request req1
on the empty store. -/
theorem C3_amended_write_witness :
    (ServeHTTP (some req1) envA emptyStore).store =
      setStore emptyStore "k1" "processing" (24 * timeHour) :=
  C3_amended_write req1 emptyStore "m1" req1_valid rfl

/-- Claim C4 counterexample: immediately after the existence check — at
the state from which publish is attempted — the store still has no entry
for the key and nothing has been published, contradicting the claim that
the claim key is created in the dedup store before publish is
attempted. -/
theorem C4_counterexample :
    (stepThread envA req1 .checkExists emptyStore).1 = .publishStep ∧
    (stepThread envA req1 .checkExists emptyStore).2.1 "k1" = none ∧
    (stepThread envA req1 .checkExists emptyStore).2.2 = [] :=
  ⟨rfl, rfl, rfl⟩

/-- Claim C4 (amended): within a single submit call the three external
interactions occur in the strict order existence check, then publish,
then key write; the key is still absent when publish is attempted — the
claim key is created only after a successful publish — and publish is
attempted only when the key was absent at the check. -/
theorem C4_amended_order (env : Env) (req : TransferRequest) (store : Store)
    (hfresh : store req.IdempotencyKey = none)
    (hpub : env.pubOk = true) (hset : env.setOk = true) :
    stepThread env req .checkExists store = (.publishStep, store, []) ∧
    stepThread env req .publishStep store =
      (.writeKey, store, [⟨env.msgId, jsonMarshal req⟩]) ∧
    stepThread env req .writeKey store =
      (.finished (.accepted env.msgId),
       setStore store req.IdempotencyKey "processing" (24 * timeHour),
       []) := by
  refine ⟨?_, ?_, ?_⟩ <;> simp [stepThread, hfresh, hpub, hset]

/-- Claim C4 witness: the amended ordering at the concrete request req1
on the empty store. -/
theorem C4_amended_order_witness :
    stepThread envA req1 .checkExists emptyStore =
      (.publishStep, emptyStore, []) ∧
    stepThread envA req1 .publishStep emptyStore =
      (.writeKey, emptyStore, [⟨"m1", jsonMarshal req1⟩]) ∧
    stepThread envA req1 .writeKey emptyStore =
      (.finished (.accepted "m1"),
       setStore emptyStore "k1" "processing" (24 * timeHour), []) :=
  C4_amended_order envA req1 emptyStore rfl rfl rfl

/-- Claim C5: for every valid request whose idempotency key is fresh and
whose publish succeeds, submit returns Accepted with the freshly
generated message identifier, publishes exactly the one message carrying
that identifier, and the published payload deserializes back to the
original validated request. -/
theorem C5_fresh_accept (req : TransferRequest) (store : Store)
    (msgId : String) (setOk : Bool)
    (hvalid : ¬ invalidParams req)
    (hfresh : store req.IdempotencyKey = none) :
    (ServeHTTP (some req) ⟨true, true, setOk, msgId⟩ store).response =
        .accepted msgId ∧
    (ServeHTTP (some req) ⟨true, true, setOk, msgId⟩ store).published =
        [⟨msgId, jsonMarshal req⟩] ∧
    ((ServeHTTP (some req) ⟨true, true, setOk, msgId⟩ store).published.map
        (fun m => jsonUnmarshal m.payload)) = [some req] := by
  refine ⟨?_, ?_, ?_⟩ <;>
    simp [ServeHTTP, hvalid, hfresh, jsonMarshal_roundtrip]

/-- Claim C5 witness: the statement at the spec's example request on the
empty store with every external call succeeding. -/
theorem C5_fresh_accept_witness :
    (ServeHTTP (some req1) envA emptyStore).response = .accepted "m1" ∧
    (ServeHTTP (some req1) envA emptyStore).published =
        [⟨"m1", jsonMarshal req1⟩] ∧
    ((ServeHTTP (some req1) envA emptyStore).published.map
        (fun m => jsonUnmarshal m.payload)) = [some req1] :=
  C5_fresh_accept req1 emptyStore "m1" true req1_valid rfl

/-- Claim C6: for every valid submit whose idempotency key already has a
live claim in the store, the call returns the duplicate response —
distinguishable from every accepted response — publishes no message and
leaves the store untouched, whatever the other fields of the request. -/
theorem C6_duplicate (req : TransferRequest) (env : Env) (store : Store)
    (hvalid : ¬ invalidParams req) (hex : env.existsOk = true)
    (hdup : (store req.IdempotencyKey).isSome = true) :
    (ServeHTTP (some req) env store).response = .duplicate ∧
    (ServeHTTP (some req) env store).store = store ∧
    (ServeHTTP (some req) env store).published = [] ∧
    ∀ m : String, (Response.duplicate : Response) ≠ .accepted m := by
  refine ⟨?_, ?_, ?_, ?_⟩ <;> simp [ServeHTTP, hvalid, hex, hdup]

/-- Claim C6 witness: resubmitting req1 against a store already holding a
claim for k1 yields the duplicate outcome with no side effects. -/
theorem C6_duplicate_witness :
    (ServeHTTP (some req1) envA dupStore).response = .duplicate ∧
    (ServeHTTP (some req1) envA dupStore).store = dupStore ∧
    (ServeHTTP (some req1) envA dupStore).published = [] ∧
    ∀ m : String, (Response.duplicate : Response) ≠ .accepted m :=
  C6_duplicate req1 envA dupStore req1_valid rfl rfl

/-- Claim C7: submit answers rejected exactly when the body fails to
decode, or the amount is not strictly positive, or the source equals the
target, or the idempotency key is empty; and every rejected call leaves
the store untouched and publishes nothing. -/
theorem C7_rejected_iff (body : Option TransferRequest) (env : Env)
    (store : Store) :
    ((ServeHTTP body env store).response = .rejected ↔
      body = none ∨ ∃ req, body = some req ∧
        (req.Amount ≤ 0 ∨ req.SourceID = req.TargetID ∨
          req.IdempotencyKey = "")) ∧
    ((ServeHTTP body env store).response = .rejected →
      (ServeHTTP body env store).store = store ∧
      (ServeHTTP body env store).published = []) := by
  cases body with
  | none => simp [ServeHTTP]
  | some req =>
    by_cases hv : invalidParams req
    · refine ⟨⟨fun _ => Or.inr ⟨req, rfl, hv⟩, fun _ => ?_⟩, fun _ => ?_⟩ <;>
        simp [ServeHTTP, hv]
    · have hnr := valid_not_rejected req env store hv
      refine ⟨⟨fun h => absurd h hnr, ?_⟩, fun h => absurd h hnr⟩
      rintro (h | ⟨r, hr, hinv⟩)
      · exact Option.noConfusion h
      · cases hr
        exact absurd hinv hv

/-- Claim C7 witness: the statement at a request failing all three
parameter rules. -/
theorem C7_rejected_iff_witness :
    ((ServeHTTP (some reqBad) envA emptyStore).response = .rejected ↔
      some reqBad = none ∨ ∃ req, some reqBad = some req ∧
        (req.Amount ≤ 0 ∨ req.SourceID = req.TargetID ∨
          req.IdempotencyKey = "")) ∧
    ((ServeHTTP (some reqBad) envA emptyStore).response = .rejected →
      (ServeHTTP (some reqBad) envA emptyStore).store = emptyStore ∧
      (ServeHTTP (some reqBad) envA emptyStore).published = []) :=
  C7_rejected_iff (some reqBad) envA emptyStore

/-- Claim C8 counterexample: immediately after a successful submit, the
modelled status query on the idempotency key returns the stored marker
processing, not Pending. -/
theorem C8_counterexample :
    query (ServeHTTP (some req1) envA emptyStore).store "k1" =
      .found "processing" ∧
    QueryResult.found "processing" ≠ QueryResult.found "pending" := by
  have h : (ServeHTTP (some req1) envA emptyStore).store =
      setStore emptyStore "k1" "processing" (24 * timeHour) :=
    ServeHTTP_store_set req1 emptyStore "m1" req1_valid rfl
  refine ⟨?_, by decide⟩
  rw [h]
  simp [query, setStore]

/-- Claim C8 (amended): the modelled status query returns Unknown when
the looked-up key is absent and the stored value verbatim otherwise; it
is read-only by construction; a never-submitted key queries to Unknown;
but immediately after a successful submit the query on the idempotency
key returns the marker processing stored under the bare key — not
Pending, since no pending record in a distinct namespace is ever
written. -/
theorem C8_amended_query (store : Store) (key : String)
    (req : TransferRequest) (msgId : String)
    (hvalid : ¬ invalidParams req)
    (hfresh : store req.IdempotencyKey = none) :
    (store key = none → query store key = .unknown) ∧
    (∀ e : StoreEntry, store key = some e →
      query store key = .found e.value) ∧
    query emptyStore key = .unknown ∧
    query (ServeHTTP (some req) ⟨true, true, true, msgId⟩ store).store
        req.IdempotencyKey = .found "processing" := by
  refine ⟨fun h => by simp [query, h], fun e he => by simp [query, he],
    by simp [query, emptyStore], ?_⟩
  rw [ServeHTTP_store_set req store msgId hvalid hfresh]
  simp [query, setStore]

/-- Claim C8 witness: the amended statement at the concrete request req1,
the empty store and a never-written key. -/
theorem C8_amended_query_witness :
    (emptyStore "nokey" = none → query emptyStore "nokey" = .unknown) ∧
    (∀ e : StoreEntry, emptyStore "nokey" = some e →
      query emptyStore "nokey" = .found e.value) ∧
    query emptyStore "nokey" = .unknown ∧
    query (ServeHTTP (some req1) envA emptyStore).store "k1" =
      .found "processing" :=
  C8_amended_query emptyStore "nokey" req1 "m1" req1_valid rfl

/-- Claim C9: when publish succeeds but the following store write fails,
the call still answers Accepted with the generated identifier and the
one published message, and the response equals the one produced when the
store write succeeds — the failure does not change the caller-visible
outcome. -/
theorem C9_setfail_accepted (req : TransferRequest) (store : Store)
    (msgId : String) (hvalid : ¬ invalidParams req)
    (hfresh : store req.IdempotencyKey = none) :
    (ServeHTTP (some req) ⟨true, true, false, msgId⟩ store).response =
        .accepted msgId ∧
    (ServeHTTP (some req) ⟨true, true, false, msgId⟩ store).published =
        [⟨msgId, jsonMarshal req⟩] ∧
    (ServeHTTP (some req) ⟨true, true, false, msgId⟩ store).response =
      (ServeHTTP (some req) ⟨true, true, true, msgId⟩ store).response := by
  refine ⟨?_, ?_, ?_⟩ <;> simp [ServeHTTP, hvalid, hfresh]

/-- Claim C9 witness: the statement at the concrete request req1 with the
store write failing. -/
theorem C9_setfail_accepted_witness :
    (ServeHTTP (some req1) ⟨true, true, false, "m1"⟩ emptyStore).response =
        .accepted "m1" ∧
    (ServeHTTP (some req1) ⟨true, true, false, "m1"⟩ emptyStore).published =
        [⟨"m1", jsonMarshal req1⟩] ∧
    (ServeHTTP (some req1) ⟨true, true, false, "m1"⟩ emptyStore).response =
      (ServeHTTP (some req1) envA emptyStore).response :=
  C9_setfail_accepted req1 emptyStore "m1" req1_valid rfl

/-- Claim C10: when publish fails, the call answers unavailable and the
store returned is the store passed in — no key was written before or
after the failure — so an immediate retry with the same key, with
publish now succeeding, is admitted as fresh and answers Accepted. -/
theorem C10_pubfail_unchanged (req : TransferRequest) (store : Store)
    (msgId : String) (setOk : Bool) (hvalid : ¬ invalidParams req)
    (hfresh : store req.IdempotencyKey = none) :
    ServeHTTP (some req) ⟨true, false, setOk, msgId⟩ store =
      ⟨.unavailable, store, []⟩ ∧
    ∀ msgId2 : String,
      (ServeHTTP (some req) ⟨true, true, true, msgId2⟩
        (ServeHTTP (some req) ⟨true, false, setOk, msgId⟩ store).store
        ).response = .accepted msgId2 := by
  have hs : ServeHTTP (some req) ⟨true, false, setOk, msgId⟩ store =
      ⟨.unavailable, store, []⟩ := by
    simp [ServeHTTP, hvalid, hfresh]
  refine ⟨hs, fun msgId2 => ?_⟩
  rw [hs]
  simp [ServeHTTP, hvalid, hfresh]

/-- Claim C10 witness: the statement at the concrete request req1 on the
empty store. -/
theorem C10_pubfail_unchanged_witness :
    ServeHTTP (some req1) envPubFail emptyStore =
      ⟨.unavailable, emptyStore, []⟩ ∧
    ∀ msgId2 : String,
      (ServeHTTP (some req1) ⟨true, true, true, msgId2⟩
        (ServeHTTP (some req1) envPubFail emptyStore).store
        ).response = .accepted msgId2 :=
  C10_pubfail_unchanged req1 emptyStore "m1" true req1_valid rfl
